import Mathlib

/-!
Verification of the vertex-orientation subsystem (`src/h3lib/lib/vertex.c`):
the base-cell vertex rotation table, the rotation resolver `vertexRotations`,
and the direction-to-vertex mapper `vertexNumForDirection`.

Machine integers are embedded as `Int`/`Nat`; the C `%` on the non-negative
operands involved agrees with `Int.emod`. Sentinels (`INVALID_ROTATIONS`,
`INVALID_VERTEX_NUM`) are `-1` as in `vertex.h`.
-/

/-- Number of base cells (`NUM_BASE_CELLS` in `constants.h`). -/
def NUM_BASE_CELLS : Nat := 122

/-- Maximum number of faces a base cell touches (`MAX_BASE_CELL_FACES`). -/
def MAX_BASE_CELL_FACES : Nat := 5

/-- Direction digit ordinals from the `Direction` enum in `coordijk.h`. -/
def CENTER_DIGIT : Nat := 0

/-- K-axis direction ordinal. -/
def K_AXES_DIGIT : Nat := 1

/-- J-axis direction ordinal. -/
def J_AXES_DIGIT : Nat := 2

/-- JK-axis direction ordinal. -/
def JK_AXES_DIGIT : Nat := 3

/-- I-axis direction ordinal. -/
def I_AXES_DIGIT : Nat := 4

/-- IK-axis direction ordinal. -/
def IK_AXES_DIGIT : Nat := 5

/-- IJ-axis direction ordinal. -/
def IJ_AXES_DIGIT : Nat := 6

/-- Invalid-direction sentinel ordinal (`INVALID_DIGIT`), also `NUM_DIGITS`. -/
def INVALID_DIGIT : Nat := 7

/-- Number of valid digits (`NUM_DIGITS`). -/
def NUM_DIGITS : Nat := 7

/-- Invalid-rotations sentinel from `vertex.h`. -/
def INVALID_ROTATIONS : Int := -1

/-- Invalid-vertex sentinel from `vertex.h`. -/
def INVALID_VERTEX_NUM : Int := -1

/-- Number of vertices of a hexagonal cell. -/
def NUM_HEX_VERTS : Int := 6

/-- Number of vertices of a pentagonal cell. -/
def NUM_PENT_VERTS : Int := 5

/-- One slot of the base cell vertex rotation table: an icosahedral face and
the CCW 60-degree rotation count for that face (`BaseCellRotation` in
`baseCells.h`). -/
structure BaseCellRotation where
  face : Int
  ccwRot60 : Int
deriving DecidableEq

/-- Modelled from the spec: the pentagon classifier `_isBaseCellPentagon`
lives in `baseCells.c`, outside the given source; the spec fixes exactly 12
pentagonal base units, and the given source table annotates them as base
cells 4, 14, 24, 38, 49, 58, 63, 72, 83, 97, 107 and 117. -/
def isBaseCellPentagon (bc : Nat) : Bool :=
  bc == 4 || bc == 14 || bc == 24 || bc == 38 || bc == 49 || bc == 58 ||
  bc == 63 || bc == 72 || bc == 83 || bc == 97 || bc == 107 || bc == 117

/-- The fields of a cell that this subsystem reads, produced by the external
collaborators `h3GetBaseCell`, `_h3ToFaceIjk` (the `face` field of the
resulting `FaceIJK`) and `_h3LeadingNonZeroDigit`. -/
structure Cell where
  baseCell : Nat
  face : Int
  leadingDigit : Nat
deriving DecidableEq

/-- Rows 0 to 13 of the base cell vertex rotation table. -/
def baseCellVertexRotationsRows0 : List (List BaseCellRotation) := [
  [⟨0, 5⟩, ⟨1, 0⟩, ⟨2, 1⟩, ⟨-1, 0⟩, ⟨-1, 0⟩],  -- base cell 0
  [⟨1, 5⟩, ⟨2, 0⟩, ⟨-1, 0⟩, ⟨-1, 0⟩, ⟨-1, 0⟩],  -- base cell 1
  [⟨0, 5⟩, ⟨1, 0⟩, ⟨2, 1⟩, ⟨6, 3⟩, ⟨-1, 0⟩],  -- base cell 2
  [⟨1, 5⟩, ⟨2, 0⟩, ⟨3, 1⟩, ⟨-1, 0⟩, ⟨-1, 0⟩],  -- base cell 3
  [⟨4, 5⟩, ⟨0, 0⟩, ⟨2, 3⟩, ⟨1, 2⟩, ⟨3, 4⟩],  -- base cell 4 (pent)
  [⟨0, 5⟩, ⟨1, 0⟩, ⟨-1, 0⟩, ⟨-1, 0⟩, ⟨-1, 0⟩],  -- base cell 5
  [⟨1, 0⟩, ⟨2, 1⟩, ⟨6, 3⟩, ⟨-1, 0⟩, ⟨-1, 0⟩],  -- base cell 6
  [⟨1, 5⟩, ⟨2, 0⟩, ⟨3, 1⟩, ⟨7, 3⟩, ⟨-1, 0⟩],  -- base cell 7
  [⟨0, 0⟩, ⟨1, 1⟩, ⟨4, 5⟩, ⟨-1, 0⟩, ⟨-1, 0⟩],  -- base cell 8
  [⟨1, 5⟩, ⟨2, 0⟩, ⟨7, 3⟩, ⟨-1, 0⟩, ⟨-1, 0⟩],  -- base cell 9
  [⟨0, 5⟩, ⟨1, 0⟩, ⟨6, 3⟩, ⟨-1, 0⟩, ⟨-1, 0⟩],  -- base cell 10
  [⟨1, 0⟩, ⟨6, 3⟩, ⟨-1, 0⟩, ⟨-1, 0⟩, ⟨-1, 0⟩],  -- base cell 11
  [⟨2, 5⟩, ⟨3, 0⟩, ⟨4, 1⟩, ⟨-1, 0⟩, ⟨-1, 0⟩],  -- base cell 12
  [⟨2, 5⟩, ⟨3, 0⟩, ⟨-1, 0⟩, ⟨-1, 0⟩, ⟨-1, 0⟩]]  -- base cell 13

/-- Rows 14 to 27 of the base cell vertex rotation table. -/
def baseCellVertexRotationsRows1 : List (List BaseCellRotation) := [
  [⟨6, 3⟩, ⟨11, 0⟩, ⟨2, 1⟩, ⟨7, 4⟩, ⟨1, 0⟩],  -- base cell 14 (pent)
  [⟨0, 1⟩, ⟨3, 5⟩, ⟨4, 0⟩, ⟨-1, 0⟩, ⟨-1, 0⟩],  -- base cell 15
  [⟨0, 0⟩, ⟨1, 1⟩, ⟨4, 5⟩, ⟨5, 3⟩, ⟨-1, 0⟩],  -- base cell 16
  [⟨1, 3⟩, ⟨6, 0⟩, ⟨11, 3⟩, ⟨-1, 0⟩, ⟨-1, 0⟩],  -- base cell 17
  [⟨0, 0⟩, ⟨1, 1⟩, ⟨5, 3⟩, ⟨-1, 0⟩, ⟨-1, 0⟩],  -- base cell 18
  [⟨2, 0⟩, ⟨7, 3⟩, ⟨-1, 0⟩, ⟨-1, 0⟩, ⟨-1, 0⟩],  -- base cell 19
  [⟨2, 3⟩, ⟨7, 0⟩, ⟨11, 3⟩, ⟨-1, 0⟩, ⟨-1, 0⟩],  -- base cell 20
  [⟨2, 0⟩, ⟨3, 1⟩, ⟨7, 3⟩, ⟨-1, 0⟩, ⟨-1, 0⟩],  -- base cell 21
  [⟨0, 0⟩, ⟨4, 5⟩, ⟨-1, 0⟩, ⟨-1, 0⟩, ⟨-1, 0⟩],  -- base cell 22
  [⟨1, 3⟩, ⟨6, 0⟩, ⟨10, 3⟩, ⟨-1, 0⟩, ⟨-1, 0⟩],  -- base cell 23
  [⟨5, 3⟩, ⟨10, 0⟩, ⟨1, 1⟩, ⟨6, 4⟩, ⟨0, 0⟩],  -- base cell 24 (pent)
  [⟨1, 3⟩, ⟨6, 0⟩, ⟨10, 3⟩, ⟨11, 3⟩, ⟨-1, 0⟩],  -- base cell 25
  [⟨2, 5⟩, ⟨3, 0⟩, ⟨4, 1⟩, ⟨8, 3⟩, ⟨-1, 0⟩],  -- base cell 26
  [⟨6, 3⟩, ⟨7, 3⟩, ⟨11, 0⟩, ⟨-1, 0⟩, ⟨-1, 0⟩]]  -- base cell 27

/-- Rows 28 to 41 of the base cell vertex rotation table. -/
def baseCellVertexRotationsRows2 : List (List BaseCellRotation) := [
  [⟨3, 5⟩, ⟨4, 0⟩, ⟨-1, 0⟩, ⟨-1, 0⟩, ⟨-1, 0⟩],  -- base cell 28
  [⟨2, 5⟩, ⟨3, 0⟩, ⟨8, 3⟩, ⟨-1, 0⟩, ⟨-1, 0⟩],  -- base cell 29
  [⟨0, 0⟩, ⟨5, 3⟩, ⟨-1, 0⟩, ⟨-1, 0⟩, ⟨-1, 0⟩],  -- base cell 30
  [⟨0, 1⟩, ⟨3, 5⟩, ⟨4, 0⟩, ⟨9, 3⟩, ⟨-1, 0⟩],  -- base cell 31
  [⟨0, 3⟩, ⟨5, 0⟩, ⟨10, 3⟩, ⟨-1, 0⟩, ⟨-1, 0⟩],  -- base cell 32
  [⟨0, 0⟩, ⟨4, 5⟩, ⟨5, 3⟩, ⟨-1, 0⟩, ⟨-1, 0⟩],  -- base cell 33
  [⟨2, 3⟩, ⟨7, 0⟩, ⟨12, 3⟩, ⟨-1, 0⟩, ⟨-1, 0⟩],  -- base cell 34
  [⟨6, 3⟩, ⟨11, 0⟩, ⟨-1, 0⟩, ⟨-1, 0⟩, ⟨-1, 0⟩],  -- base cell 35
  [⟨2, 3⟩, ⟨7, 0⟩, ⟨11, 3⟩, ⟨12, 3⟩, ⟨-1, 0⟩],  -- base cell 36
  [⟨5, 3⟩, ⟨6, 3⟩, ⟨10, 0⟩, ⟨-1, 0⟩, ⟨-1, 0⟩],  -- base cell 37
  [⟨7, 3⟩, ⟨12, 0⟩, ⟨3, 1⟩, ⟨8, 4⟩, ⟨2, 0⟩],  -- base cell 38 (pent)
  [⟨6, 0⟩, ⟨10, 3⟩, ⟨-1, 0⟩, ⟨-1, 0⟩, ⟨-1, 0⟩],  -- base cell 39
  [⟨7, 0⟩, ⟨11, 3⟩, ⟨-1, 0⟩, ⟨-1, 0⟩, ⟨-1, 0⟩],  -- base cell 40
  [⟨0, 1⟩, ⟨4, 0⟩, ⟨9, 3⟩, ⟨-1, 0⟩, ⟨-1, 0⟩]]  -- base cell 41

/-- Rows 42 to 55 of the base cell vertex rotation table. -/
def baseCellVertexRotationsRows3 : List (List BaseCellRotation) := [
  [⟨3, 0⟩, ⟨4, 1⟩, ⟨8, 3⟩, ⟨-1, 0⟩, ⟨-1, 0⟩],  -- base cell 42
  [⟨3, 0⟩, ⟨8, 3⟩, ⟨-1, 0⟩, ⟨-1, 0⟩, ⟨-1, 0⟩],  -- base cell 43
  [⟨3, 5⟩, ⟨4, 0⟩, ⟨9, 3⟩, ⟨-1, 0⟩, ⟨-1, 0⟩],  -- base cell 44
  [⟨6, 0⟩, ⟨10, 3⟩, ⟨11, 3⟩, ⟨-1, 0⟩, ⟨-1, 0⟩],  -- base cell 45
  [⟨6, 3⟩, ⟨7, 3⟩, ⟨11, 0⟩, ⟨16, 3⟩, ⟨-1, 0⟩],  -- base cell 46
  [⟨3, 3⟩, ⟨8, 0⟩, ⟨12, 3⟩, ⟨-1, 0⟩, ⟨-1, 0⟩],  -- base cell 47
  [⟨0, 3⟩, ⟨5, 0⟩, ⟨14, 3⟩, ⟨-1, 0⟩, ⟨-1, 0⟩],  -- base cell 48
  [⟨9, 3⟩, ⟨14, 0⟩, ⟨0, 1⟩, ⟨5, 4⟩, ⟨4, 0⟩],  -- base cell 49 (pent)
  [⟨0, 3⟩, ⟨5, 0⟩, ⟨10, 3⟩, ⟨14, 3⟩, ⟨-1, 0⟩],  -- base cell 50
  [⟨7, 3⟩, ⟨8, 3⟩, ⟨12, 0⟩, ⟨-1, 0⟩, ⟨-1, 0⟩],  -- base cell 51
  [⟨5, 3⟩, ⟨10, 0⟩, ⟨-1, 0⟩, ⟨-1, 0⟩, ⟨-1, 0⟩],  -- base cell 52
  [⟨4, 0⟩, ⟨9, 3⟩, ⟨-1, 0⟩, ⟨-1, 0⟩, ⟨-1, 0⟩],  -- base cell 53
  [⟨7, 3⟩, ⟨12, 0⟩, ⟨-1, 0⟩, ⟨-1, 0⟩, ⟨-1, 0⟩],  -- base cell 54
  [⟨7, 0⟩, ⟨11, 3⟩, ⟨12, 3⟩, ⟨-1, 0⟩, ⟨-1, 0⟩]]  -- base cell 55

/-- Rows 56 to 69 of the base cell vertex rotation table. -/
def baseCellVertexRotationsRows4 : List (List BaseCellRotation) := [
  [⟨6, 3⟩, ⟨11, 0⟩, ⟨16, 3⟩, ⟨-1, 0⟩, ⟨-1, 0⟩],  -- base cell 56
  [⟨5, 1⟩, ⟨6, 3⟩, ⟨10, 0⟩, ⟨15, 3⟩, ⟨-1, 0⟩],  -- base cell 57
  [⟨8, 3⟩, ⟨13, 0⟩, ⟨4, 1⟩, ⟨9, 4⟩, ⟨3, 0⟩],  -- base cell 58 (pent)
  [⟨6, 3⟩, ⟨10, 0⟩, ⟨15, 3⟩, ⟨-1, 0⟩, ⟨-1, 0⟩],  -- base cell 59
  [⟨7, 3⟩, ⟨11, 0⟩, ⟨16, 3⟩, ⟨-1, 0⟩, ⟨-1, 0⟩],  -- base cell 60
  [⟨4, 3⟩, ⟨9, 0⟩, ⟨14, 3⟩, ⟨-1, 0⟩, ⟨-1, 0⟩],  -- base cell 61
  [⟨3, 3⟩, ⟨8, 0⟩, ⟨13, 3⟩, ⟨-1, 0⟩, ⟨-1, 0⟩],  -- base cell 62
  [⟨11, 3⟩, ⟨6, 0⟩, ⟨15, 1⟩, ⟨10, 4⟩, ⟨16, 0⟩],  -- base cell 63 (pent)
  [⟨3, 3⟩, ⟨8, 0⟩, ⟨12, 3⟩, ⟨13, 3⟩, ⟨-1, 0⟩],  -- base cell 64
  [⟨4, 3⟩, ⟨9, 0⟩, ⟨13, 3⟩, ⟨-1, 0⟩, ⟨-1, 0⟩],  -- base cell 65
  [⟨5, 3⟩, ⟨9, 3⟩, ⟨14, 0⟩, ⟨-1, 0⟩, ⟨-1, 0⟩],  -- base cell 66
  [⟨5, 0⟩, ⟨14, 3⟩, ⟨-1, 0⟩, ⟨-1, 0⟩, ⟨-1, 0⟩],  -- base cell 67
  [⟨11, 3⟩, ⟨16, 0⟩, ⟨-1, 0⟩, ⟨-1, 0⟩, ⟨-1, 0⟩],  -- base cell 68
  [⟨8, 0⟩, ⟨12, 3⟩, ⟨-1, 0⟩, ⟨-1, 0⟩, ⟨-1, 0⟩]]  -- base cell 69

/-- Rows 70 to 83 of the base cell vertex rotation table. -/
def baseCellVertexRotationsRows5 : List (List BaseCellRotation) := [
  [⟨5, 0⟩, ⟨10, 3⟩, ⟨14, 3⟩, ⟨-1, 0⟩, ⟨-1, 0⟩],  -- base cell 70
  [⟨7, 3⟩, ⟨8, 3⟩, ⟨12, 0⟩, ⟨17, 3⟩, ⟨-1, 0⟩],  -- base cell 71
  [⟨12, 3⟩, ⟨7, 0⟩, ⟨16, 1⟩, ⟨11, 4⟩, ⟨17, 0⟩],  -- base cell 72 (pent)
  [⟨7, 3⟩, ⟨12, 0⟩, ⟨17, 3⟩, ⟨-1, 0⟩, ⟨-1, 0⟩],  -- base cell 73
  [⟨5, 3⟩, ⟨10, 0⟩, ⟨15, 3⟩, ⟨-1, 0⟩, ⟨-1, 0⟩],  -- base cell 74
  [⟨4, 3⟩, ⟨9, 0⟩, ⟨13, 3⟩, ⟨14, 3⟩, ⟨-1, 0⟩],  -- base cell 75
  [⟨8, 3⟩, ⟨9, 3⟩, ⟨13, 0⟩, ⟨-1, 0⟩, ⟨-1, 0⟩],  -- base cell 76
  [⟨11, 3⟩, ⟨15, 1⟩, ⟨16, 0⟩, ⟨-1, 0⟩, ⟨-1, 0⟩],  -- base cell 77
  [⟨10, 3⟩, ⟨15, 0⟩, ⟨-1, 0⟩, ⟨-1, 0⟩, ⟨-1, 0⟩],  -- base cell 78
  [⟨10, 3⟩, ⟨15, 0⟩, ⟨16, 5⟩, ⟨-1, 0⟩, ⟨-1, 0⟩],  -- base cell 79
  [⟨11, 3⟩, ⟨16, 0⟩, ⟨17, 5⟩, ⟨-1, 0⟩, ⟨-1, 0⟩],  -- base cell 80
  [⟨9, 3⟩, ⟨14, 0⟩, ⟨-1, 0⟩, ⟨-1, 0⟩, ⟨-1, 0⟩],  -- base cell 81
  [⟨8, 3⟩, ⟨13, 0⟩, ⟨-1, 0⟩, ⟨-1, 0⟩, ⟨-1, 0⟩],  -- base cell 82
  [⟨10, 3⟩, ⟨5, 0⟩, ⟨19, 1⟩, ⟨14, 4⟩, ⟨15, 0⟩]]  -- base cell 83 (pent)

/-- Rows 84 to 97 of the base cell vertex rotation table. -/
def baseCellVertexRotationsRows6 : List (List BaseCellRotation) := [
  [⟨8, 0⟩, ⟨12, 3⟩, ⟨13, 3⟩, ⟨-1, 0⟩, ⟨-1, 0⟩],  -- base cell 84
  [⟨5, 3⟩, ⟨9, 3⟩, ⟨14, 0⟩, ⟨19, 3⟩, ⟨-1, 0⟩],  -- base cell 85
  [⟨9, 0⟩, ⟨13, 3⟩, ⟨-1, 0⟩, ⟨-1, 0⟩, ⟨-1, 0⟩],  -- base cell 86
  [⟨5, 3⟩, ⟨14, 0⟩, ⟨19, 3⟩, ⟨-1, 0⟩, ⟨-1, 0⟩],  -- base cell 87
  [⟨12, 3⟩, ⟨16, 1⟩, ⟨17, 0⟩, ⟨-1, 0⟩, ⟨-1, 0⟩],  -- base cell 88
  [⟨8, 3⟩, ⟨12, 0⟩, ⟨17, 3⟩, ⟨-1, 0⟩, ⟨-1, 0⟩],  -- base cell 89
  [⟨11, 3⟩, ⟨15, 1⟩, ⟨16, 0⟩, ⟨17, 5⟩, ⟨-1, 0⟩],  -- base cell 90
  [⟨12, 3⟩, ⟨17, 0⟩, ⟨-1, 0⟩, ⟨-1, 0⟩, ⟨-1, 0⟩],  -- base cell 91
  [⟨10, 3⟩, ⟨15, 0⟩, ⟨19, 1⟩, ⟨-1, 0⟩, ⟨-1, 0⟩],  -- base cell 92
  [⟨15, 1⟩, ⟨16, 0⟩, ⟨-1, 0⟩, ⟨-1, 0⟩, ⟨-1, 0⟩],  -- base cell 93
  [⟨9, 0⟩, ⟨13, 3⟩, ⟨14, 3⟩, ⟨-1, 0⟩, ⟨-1, 0⟩],  -- base cell 94
  [⟨10, 3⟩, ⟨15, 0⟩, ⟨16, 5⟩, ⟨19, 1⟩, ⟨-1, 0⟩],  -- base cell 95
  [⟨8, 3⟩, ⟨9, 3⟩, ⟨13, 0⟩, ⟨18, 3⟩, ⟨-1, 0⟩],  -- base cell 96
  [⟨13, 3⟩, ⟨8, 0⟩, ⟨17, 1⟩, ⟨12, 4⟩, ⟨18, 0⟩]]  -- base cell 97 (pent)

/-- Rows 98 to 111 of the base cell vertex rotation table. -/
def baseCellVertexRotationsRows7 : List (List BaseCellRotation) := [
  [⟨8, 3⟩, ⟨13, 0⟩, ⟨18, 3⟩, ⟨-1, 0⟩, ⟨-1, 0⟩],  -- base cell 98
  [⟨16, 1⟩, ⟨17, 0⟩, ⟨-1, 0⟩, ⟨-1, 0⟩, ⟨-1, 0⟩],  -- base cell 99
  [⟨14, 3⟩, ⟨15, 5⟩, ⟨19, 0⟩, ⟨-1, 0⟩, ⟨-1, 0⟩],  -- base cell 100
  [⟨9, 3⟩, ⟨14, 0⟩, ⟨19, 3⟩, ⟨-1, 0⟩, ⟨-1, 0⟩],  -- base cell 101
  [⟨14, 3⟩, ⟨19, 0⟩, ⟨-1, 0⟩, ⟨-1, 0⟩, ⟨-1, 0⟩],  -- base cell 102
  [⟨12, 3⟩, ⟨17, 0⟩, ⟨18, 5⟩, ⟨-1, 0⟩, ⟨-1, 0⟩],  -- base cell 103
  [⟨9, 3⟩, ⟨13, 0⟩, ⟨18, 3⟩, ⟨-1, 0⟩, ⟨-1, 0⟩],  -- base cell 104
  [⟨12, 3⟩, ⟨16, 1⟩, ⟨17, 0⟩, ⟨18, 5⟩, ⟨-1, 0⟩],  -- base cell 105
  [⟨15, 1⟩, ⟨16, 0⟩, ⟨17, 5⟩, ⟨-1, 0⟩, ⟨-1, 0⟩],  -- base cell 106
  [⟨14, 3⟩, ⟨9, 0⟩, ⟨18, 1⟩, ⟨13, 4⟩, ⟨19, 0⟩],  -- base cell 107 (pent)
  [⟨15, 0⟩, ⟨19, 1⟩, ⟨-1, 0⟩, ⟨-1, 0⟩, ⟨-1, 0⟩],  -- base cell 108
  [⟨15, 0⟩, ⟨16, 5⟩, ⟨19, 1⟩, ⟨-1, 0⟩, ⟨-1, 0⟩],  -- base cell 109
  [⟨13, 3⟩, ⟨18, 0⟩, ⟨-1, 0⟩, ⟨-1, 0⟩, ⟨-1, 0⟩],  -- base cell 110
  [⟨13, 3⟩, ⟨17, 1⟩, ⟨18, 0⟩, ⟨-1, 0⟩, ⟨-1, 0⟩]]  -- base cell 111

/-- Rows 112 to 121 of the base cell vertex rotation table. -/
def baseCellVertexRotationsRows8 : List (List BaseCellRotation) := [
  [⟨14, 3⟩, ⟨18, 1⟩, ⟨19, 0⟩, ⟨-1, 0⟩, ⟨-1, 0⟩],  -- base cell 112
  [⟨16, 1⟩, ⟨17, 0⟩, ⟨18, 5⟩, ⟨-1, 0⟩, ⟨-1, 0⟩],  -- base cell 113
  [⟨14, 3⟩, ⟨15, 5⟩, ⟨18, 1⟩, ⟨19, 0⟩, ⟨-1, 0⟩],  -- base cell 114
  [⟨13, 3⟩, ⟨18, 0⟩, ⟨19, 5⟩, ⟨-1, 0⟩, ⟨-1, 0⟩],  -- base cell 115
  [⟨17, 1⟩, ⟨18, 0⟩, ⟨-1, 0⟩, ⟨-1, 0⟩, ⟨-1, 0⟩],  -- base cell 116
  [⟨15, 5⟩, ⟨19, 0⟩, ⟨17, 3⟩, ⟨18, 2⟩, ⟨16, 4⟩],  -- base cell 117 (pent)
  [⟨15, 5⟩, ⟨18, 1⟩, ⟨19, 0⟩, ⟨-1, 0⟩, ⟨-1, 0⟩],  -- base cell 118
  [⟨13, 3⟩, ⟨17, 1⟩, ⟨18, 0⟩, ⟨19, 5⟩, ⟨-1, 0⟩],  -- base cell 119
  [⟨18, 1⟩, ⟨19, 0⟩, ⟨-1, 0⟩, ⟨-1, 0⟩, ⟨-1, 0⟩],  -- base cell 120
  [⟨17, 1⟩, ⟨18, 0⟩, ⟨19, 5⟩, ⟨-1, 0⟩, ⟨-1, 0⟩]]  -- base cell 121

/-- Base cell vertex rotation table (`baseCellVertexRotations` in
`vertex.c`): for each of the 122 base cells, up to 5 (face, ccwRot60)
pairs; unused slots are marked with face `-1`. -/
def baseCellVertexRotations : List (List BaseCellRotation) :=
  baseCellVertexRotationsRows0 ++ baseCellVertexRotationsRows1 ++ baseCellVertexRotationsRows2 ++ baseCellVertexRotationsRows3 ++ baseCellVertexRotationsRows4 ++ baseCellVertexRotationsRows5 ++ baseCellVertexRotationsRows6 ++ baseCellVertexRotationsRows7 ++ baseCellVertexRotationsRows8

/-- The row `baseCellVertexRotations[bc]` of the table ([] if out of range;
every in-range base cell has exactly 5 slots). -/
def cellRotationRow (bc : Nat) : List BaseCellRotation :=
  baseCellVertexRotations.getD bc []

/-- The slot `baseCellVertexRotations[bc][i]` of the table (a sentinel slot
if out of range). -/
def rowSlot (bc i : Nat) : BaseCellRotation :=
  (cellRotationRow bc).getD i ⟨-1, 0⟩

/-- The pentagon-crossing correction applied by `vertexRotations` once the
face association matching the cell's face is found: the body of the loop in
`vertex.c` lines 177-195 after `rotation.face == fijk.face` holds. -/
def pentagonCorrection (baseCell : Nat) (face : Int) (cellLeadingDigit : Nat)
    (ccwRot60 : Int) : Int :=
  if isBaseCellPentagon baseCell then
    if cellLeadingDigit = JK_AXES_DIGIT ∧
        face = (rowSlot baseCell (IK_AXES_DIGIT - 2)).face then
      -- Crosses from JK to IK: Rotate CW
      if ccwRot60 = 0 then 5 else ccwRot60 - 1
    else if cellLeadingDigit = IK_AXES_DIGIT ∧
        face = (rowSlot baseCell (JK_AXES_DIGIT - 2)).face then
      -- Crosses from IK to J: Rotate CCW
      (ccwRot60 + 1) % 6
    else ccwRot60
  else ccwRot60

/-- The scan over the base cell's face association slots in
`vertexRotations`: first slot whose face equals the cell's face wins;
if none matches the result is `INVALID_ROTATIONS`. -/
def vertexRotationsLoop (baseCell : Nat) (face : Int) (cellLeadingDigit : Nat) :
    List BaseCellRotation → Int
  | [] => INVALID_ROTATIONS
  | r :: rest =>
    if r.face = face then
      pentagonCorrection baseCell face cellLeadingDigit r.ccwRot60
    else vertexRotationsLoop baseCell face cellLeadingDigit rest

/-- `vertexRotations` from `vertex.c`: number of CCW rotations of the cell's
vertex numbers compared to the directional layout of its neighbors, or
`INVALID_ROTATIONS` if the cell's base cell was not found on this face. -/
def vertexRotations (cell : Cell) : Int :=
  vertexRotationsLoop cell.baseCell cell.face cell.leadingDigit
    (cellRotationRow cell.baseCell)

/-- The first face association of base cell `bc` whose face is `face`, the
slot `vertexRotations`' scan stops at. -/
def findAssoc (bc : Nat) (face : Int) : Option BaseCellRotation :=
  (cellRotationRow bc).find? (fun r => r.face == face)

/-- Hexagon direction to vertex number relationships
(`directionToVertexNumHex` in `vertex.c`). -/
def directionToVertexNumHex : List Int :=
  [(INVALID_DIGIT : Int), 3, 1, 2, 5, 4, 0]

/-- Pentagon direction to vertex number relationships
(`directionToVertexNumPent` in `vertex.c`). -/
def directionToVertexNumPent : List Int :=
  [(INVALID_DIGIT : Int), (INVALID_DIGIT : Int), 1, 2, 4, 3, 0]

/-- `vertexNumForDirection` from `vertex.c`: the first vertex number for a
given direction, or `INVALID_VERTEX_NUM` if the direction is not valid for
this cell. Directions are embedded as their C enum ordinals. -/
def vertexNumForDirection (origin : Cell) (direction : Nat) : Int :=
  let isPentagon := isBaseCellPentagon origin.baseCell
  -- Check for invalid directions
  if direction = CENTER_DIGIT ∨ INVALID_DIGIT ≤ direction ∨
      (isPentagon = true ∧ direction = K_AXES_DIGIT) then
    INVALID_VERTEX_NUM
  else
    let rotations := vertexRotations origin
    -- Handle bad rotation calculation: should be unreachable
    if rotations = INVALID_ROTATIONS then INVALID_VERTEX_NUM
    -- Find the appropriate vertex, rotating CCW if necessary
    else if isPentagon then
      (directionToVertexNumPent.getD direction (INVALID_DIGIT : Int) +
        NUM_PENT_VERTS - rotations) % NUM_PENT_VERTS
    else
      (directionToVertexNumHex.getD direction (INVALID_DIGIT : Int) +
        NUM_HEX_VERTS - rotations) % NUM_HEX_VERTS

/-- The modular rotation arithmetic of the mapper's final step with the
hexagon modulus: `(v + NUM_HEX_VERTS - rotations) % NUM_HEX_VERTS`. -/
def rotateVertex (v rotations : Int) : Int :=
  (v + NUM_HEX_VERTS - rotations) % NUM_HEX_VERTS

/-! ## Helper lemmas -/

set_option maxRecDepth 100000

lemma length_baseCellVertexRotations :
    baseCellVertexRotations.length = NUM_BASE_CELLS := by decide

lemma ccwRot60_mem_table_range :
    ∀ row ∈ baseCellVertexRotations, ∀ e ∈ row,
      0 ≤ e.ccwRot60 ∧ e.ccwRot60 ≤ 5 := by decide

lemma ccwRot60_range_of_mem_row {bc : Nat} {e : BaseCellRotation}
    (he : e ∈ cellRotationRow bc) : 0 ≤ e.ccwRot60 ∧ e.ccwRot60 ≤ 5 := by
  unfold cellRotationRow at he
  rcases Nat.lt_or_ge bc baseCellVertexRotations.length with hlt | hge
  · rw [List.getD_eq_getElem _ _ hlt] at he
    exact ccwRot60_mem_table_range _ (baseCellVertexRotations.getElem_mem hlt) e he
  · rw [List.getD_eq_default _ _ hge] at he
    simp at he

lemma pentagonCorrection_range (bc : Nat) (f : Int) (ld : Nat) (r : Int)
    (h0 : 0 ≤ r) (h5 : r ≤ 5) :
    0 ≤ pentagonCorrection bc f ld r ∧ pentagonCorrection bc f ld r ≤ 5 := by
  unfold pentagonCorrection
  split_ifs <;> omega

lemma vertexRotationsLoop_of_find_some {f : Int} {row : List BaseCellRotation}
    {a : BaseCellRotation} (bc : Nat) (ld : Nat)
    (h : row.find? (fun r => r.face == f) = some a) :
    vertexRotationsLoop bc f ld row = pentagonCorrection bc f ld a.ccwRot60 := by
  induction row with
  | nil => simp [List.find?] at h
  | cons x rest ih =>
    by_cases hx : x.face = f
    · rw [List.find?_cons_of_pos _ (by simpa using hx)] at h
      obtain rfl : x = a := by simpa using h
      simp [vertexRotationsLoop, hx]
    · rw [List.find?_cons_of_neg _ (by simpa using hx)] at h
      simp only [vertexRotationsLoop, if_neg hx]
      exact ih h

lemma vertexRotationsLoop_of_find_none {f : Int} {row : List BaseCellRotation}
    (bc : Nat) (ld : Nat)
    (h : row.find? (fun r => r.face == f) = none) :
    vertexRotationsLoop bc f ld row = INVALID_ROTATIONS := by
  induction row with
  | nil => rfl
  | cons x rest ih =>
    by_cases hx : x.face = f
    · rw [List.find?_cons_of_pos _ (by simpa using hx)] at h
      simp at h
    · rw [List.find?_cons_of_neg _ (by simpa using hx)] at h
      simp only [vertexRotationsLoop, if_neg hx]
      exact ih h

lemma vertexRotations_of_findAssoc_some {c : Cell} {a : BaseCellRotation}
    (ha : findAssoc c.baseCell c.face = some a) :
    vertexRotations c =
      pentagonCorrection c.baseCell c.face c.leadingDigit a.ccwRot60 :=
  vertexRotationsLoop_of_find_some _ _ ha

lemma vertexRotations_of_findAssoc_none {c : Cell}
    (ha : findAssoc c.baseCell c.face = none) :
    vertexRotations c = INVALID_ROTATIONS :=
  vertexRotationsLoop_of_find_none _ _ ha

lemma vertexRotations_range_of_findAssoc {c : Cell} {a : BaseCellRotation}
    (ha : findAssoc c.baseCell c.face = some a) :
    0 ≤ vertexRotations c ∧ vertexRotations c ≤ 5 := by
  have hmem : a ∈ cellRotationRow c.baseCell := List.mem_of_find?_eq_some ha
  have hr := ccwRot60_range_of_mem_row hmem
  rw [vertexRotations_of_findAssoc_some ha]
  exact pentagonCorrection_range _ _ _ _ hr.1 hr.2

lemma vertexNumForDirection_of_rejected {c : Cell} {d : Nat}
    (hd : d = CENTER_DIGIT ∨ INVALID_DIGIT ≤ d ∨
      (isBaseCellPentagon c.baseCell = true ∧ d = K_AXES_DIGIT)) :
    vertexNumForDirection c d = INVALID_VERTEX_NUM := by
  simp only [vertexNumForDirection]
  rw [if_pos hd]

lemma vertexNumForDirection_of_not_rejected {c : Cell} {d : Nat}
    (hd : ¬(d = CENTER_DIGIT ∨ INVALID_DIGIT ≤ d ∨
      (isBaseCellPentagon c.baseCell = true ∧ d = K_AXES_DIGIT)))
    (hrot : vertexRotations c ≠ INVALID_ROTATIONS) :
    vertexNumForDirection c d =
      if isBaseCellPentagon c.baseCell then
        (directionToVertexNumPent.getD d (INVALID_DIGIT : Int) +
          NUM_PENT_VERTS - vertexRotations c) % NUM_PENT_VERTS
      else
        (directionToVertexNumHex.getD d (INVALID_DIGIT : Int) +
          NUM_HEX_VERTS - vertexRotations c) % NUM_HEX_VERTS := by
  simp only [vertexNumForDirection]
  rw [if_neg hd, if_neg hrot]

lemma vertexNumForDirection_of_invalid_rotations {c : Cell} {d : Nat}
    (hd : ¬(d = CENTER_DIGIT ∨ INVALID_DIGIT ≤ d ∨
      (isBaseCellPentagon c.baseCell = true ∧ d = K_AXES_DIGIT)))
    (hrot : vertexRotations c = INVALID_ROTATIONS) :
    vertexNumForDirection c d = INVALID_VERTEX_NUM := by
  simp only [vertexNumForDirection]
  rw [if_neg hd, if_pos hrot]

lemma vertexNumForDirection_range {c : Cell} {d : Nat} {a : BaseCellRotation}
    (ha : findAssoc c.baseCell c.face = some a)
    (hd : ¬(d = CENTER_DIGIT ∨ INVALID_DIGIT ≤ d ∨
      (isBaseCellPentagon c.baseCell = true ∧ d = K_AXES_DIGIT))) :
    0 ≤ vertexNumForDirection c d ∧ vertexNumForDirection c d ≤ 5 ∧
      (isBaseCellPentagon c.baseCell = true → vertexNumForDirection c d ≤ 4) := by
  obtain ⟨h0, h5⟩ := vertexRotations_range_of_findAssoc ha
  have hne : vertexRotations c ≠ INVALID_ROTATIONS := by
    unfold INVALID_ROTATIONS; omega
  rw [vertexNumForDirection_of_not_rejected hd hne]
  by_cases hp : isBaseCellPentagon c.baseCell = true
  · rw [if_pos hp]
    simp only [NUM_PENT_VERTS]
    refine ⟨?_, ?_, ?_⟩ <;> omega
  · rw [if_neg hp]
    simp only [NUM_HEX_VERTS]
    refine ⟨?_, ?_, ?_⟩
    · omega
    · omega
    · intro hpp; exact absurd hpp hp

/-! ## Claim theorems -/

/-- C1: for a cell of a pentagonal base unit whose base unit has a face
association matching the cell's current face with recorded rotation
`a.ccwRot60`, `vertexRotations` returns that rotation turned one step
clockwise (`0` wrapping to `5`) when the leading digit is the JK axis and
the current face sits in the IK-axis-indexed slot, turned one step
counter-clockwise (`mod 6`) when the leading digit is the IK axis and the
current face sits in the JK-axis-indexed slot, and unchanged otherwise. -/
theorem C1_pentagon_crossing_correction (c : Cell) (a : BaseCellRotation)
    (hpent : isBaseCellPentagon c.baseCell = true)
    (ha : findAssoc c.baseCell c.face = some a) :
    vertexRotations c =
      if c.leadingDigit = JK_AXES_DIGIT ∧
          c.face = (rowSlot c.baseCell (IK_AXES_DIGIT - 2)).face then
        (if a.ccwRot60 = 0 then 5 else a.ccwRot60 - 1)
      else if c.leadingDigit = IK_AXES_DIGIT ∧
          c.face = (rowSlot c.baseCell (JK_AXES_DIGIT - 2)).face then
        (a.ccwRot60 + 1) % 6
      else a.ccwRot60 := by
  rw [vertexRotations_of_findAssoc_some ha]
  unfold pentagonCorrection
  rw [if_pos hpent]

/-- Witness for C1: base cell 4 is pentagonal; a cell on face 1 (the
IK-indexed slot's face, recorded rotation 2) with leading digit JK gets the
clockwise correction 2 - 1 = 1. -/
theorem C1_pentagon_crossing_correction_witness :
    vertexRotations ⟨4, 1, 3⟩ = 1 :=
  (C1_pentagon_crossing_correction ⟨4, 1, 3⟩ ⟨1, 2⟩ (by decide)
    (by decide)).trans (by decide)

/-- C2: with a matching face association, `vertexNumForDirection` returns a
value in [0,5] for a non-pentagonal cell and any of the five directions
1..5, and a value in [0,4] for a pentagonal cell and any of the four
directions 2..5. -/
theorem C2_vertex_number_in_range (c : Cell) (d : Nat) (a : BaseCellRotation)
    (ha : findAssoc c.baseCell c.face = some a) :
    (isBaseCellPentagon c.baseCell = false → 1 ≤ d → d ≤ 5 →
      0 ≤ vertexNumForDirection c d ∧ vertexNumForDirection c d ≤ 5) ∧
    (isBaseCellPentagon c.baseCell = true → 2 ≤ d → d ≤ 5 →
      0 ≤ vertexNumForDirection c d ∧ vertexNumForDirection c d ≤ 4) := by
  constructor
  · intro hp h1 h5
    have hd : ¬(d = CENTER_DIGIT ∨ INVALID_DIGIT ≤ d ∨
        (isBaseCellPentagon c.baseCell = true ∧ d = K_AXES_DIGIT)) := by
      simp only [CENTER_DIGIT, INVALID_DIGIT, K_AXES_DIGIT]
      push_neg
      refine ⟨by omega, by omega, fun hq => ?_⟩
      simp [hp] at hq
    obtain ⟨r0, r5, _⟩ := vertexNumForDirection_range ha hd
    exact ⟨r0, r5⟩
  · intro hp h2 h5
    have hd : ¬(d = CENTER_DIGIT ∨ INVALID_DIGIT ≤ d ∨
        (isBaseCellPentagon c.baseCell = true ∧ d = K_AXES_DIGIT)) := by
      simp only [CENTER_DIGIT, INVALID_DIGIT, K_AXES_DIGIT]
      push_neg
      exact ⟨by omega, by omega, fun _ => by omega⟩
    obtain ⟨r0, _, r4⟩ := vertexNumForDirection_range ha hd
    exact ⟨r0, r4 hp⟩

/-- Witness for C2: the hexagonal cell of base cell 0 on face 0 queried for
the J-axis direction yields a vertex number in [0,5]. -/
theorem C2_vertex_number_in_range_witness :
    0 ≤ vertexNumForDirection ⟨0, 0, 2⟩ 2 ∧
      vertexNumForDirection ⟨0, 0, 2⟩ 2 ≤ 5 :=
  (C2_vertex_number_in_range ⟨0, 0, 2⟩ 2 ⟨0, 5⟩ (by decide)).1 (by decide)
    (by decide) (by decide)

/-- C3: `vertexNumForDirection` returns the invalid-vertex sentinel for the
CENTER direction, for any direction ordinal at or beyond the invalid
sentinel ordinal, and for the K-axis direction on a pentagonal cell; in
particular the K-axis direction on any pentagonal cell yields the
sentinel. -/
theorem C3_invalid_directions_rejected (c : Cell) (d : Nat)
    (hd : d = CENTER_DIGIT ∨ INVALID_DIGIT ≤ d ∨
      (isBaseCellPentagon c.baseCell = true ∧ d = K_AXES_DIGIT)) :
    vertexNumForDirection c d = INVALID_VERTEX_NUM ∧
    (isBaseCellPentagon c.baseCell = true →
      vertexNumForDirection c K_AXES_DIGIT = INVALID_VERTEX_NUM) :=
  ⟨vertexNumForDirection_of_rejected hd,
    fun hp => vertexNumForDirection_of_rejected (Or.inr (Or.inr ⟨hp, rfl⟩))⟩

/-- Witness for C3: the K-axis direction on a cell of pentagonal base cell 4
yields the invalid-vertex sentinel. -/
theorem C3_invalid_directions_rejected_witness :
    vertexNumForDirection ⟨4, 1, 0⟩ 1 = INVALID_VERTEX_NUM :=
  (C3_invalid_directions_rejected ⟨4, 1, 0⟩ 1
    (Or.inr (Or.inr ⟨by decide, rfl⟩))).1

/-- C4: direction ordinal 6 (the IJ axis, absent from the spec's Direction
enumeration) is not rejected: with a matching face association,
`vertexNumForDirection` returns canonical vertex 0 rotated by the cell's
rotation count — `(0 + 5 - rotations) % 5` for pentagons and
`(0 + 6 - rotations) % 6` for hexagons — a non-negative value distinct from
the invalid sentinel. -/
theorem C4_ij_direction_accepted (c : Cell) (a : BaseCellRotation)
    (ha : findAssoc c.baseCell c.face = some a) :
    vertexNumForDirection c IJ_AXES_DIGIT =
      (if isBaseCellPentagon c.baseCell then
        (0 + NUM_PENT_VERTS - vertexRotations c) % NUM_PENT_VERTS
      else
        (0 + NUM_HEX_VERTS - vertexRotations c) % NUM_HEX_VERTS) ∧
    0 ≤ vertexNumForDirection c IJ_AXES_DIGIT ∧
    vertexNumForDirection c IJ_AXES_DIGIT ≠ INVALID_VERTEX_NUM := by
  have hd : ¬(IJ_AXES_DIGIT = CENTER_DIGIT ∨ INVALID_DIGIT ≤ IJ_AXES_DIGIT ∨
      (isBaseCellPentagon c.baseCell = true ∧ IJ_AXES_DIGIT = K_AXES_DIGIT)) := by
    simp [CENTER_DIGIT, INVALID_DIGIT, K_AXES_DIGIT, IJ_AXES_DIGIT]
  obtain ⟨h0, h5⟩ := vertexRotations_range_of_findAssoc ha
  have hne : vertexRotations c ≠ INVALID_ROTATIONS := by
    unfold INVALID_ROTATIONS; omega
  have hpent6 : directionToVertexNumPent.getD IJ_AXES_DIGIT
      (INVALID_DIGIT : Int) = 0 := by decide
  have hhex6 : directionToVertexNumHex.getD IJ_AXES_DIGIT
      (INVALID_DIGIT : Int) = 0 := by decide
  have heq := vertexNumForDirection_of_not_rejected hd hne
  rw [hpent6, hhex6] at heq
  rw [heq]
  simp only [INVALID_VERTEX_NUM, NUM_PENT_VERTS, NUM_HEX_VERTS]
  split_ifs <;> exact ⟨by trivial, by omega, by omega⟩

/-- Witness for C4: the pentagonal cell of base cell 4 on its home face 4
(rotation 5) queried for direction ordinal 6 yields vertex 0, not the
sentinel. -/
theorem C4_ij_direction_accepted_witness :
    0 ≤ vertexNumForDirection ⟨4, 4, 2⟩ IJ_AXES_DIGIT ∧
      vertexNumForDirection ⟨4, 4, 2⟩ IJ_AXES_DIGIT ≠ INVALID_VERTEX_NUM :=
  (C4_ij_direction_accepted ⟨4, 4, 2⟩ ⟨4, 5⟩ (by decide)).2

/-- C5: for any direction not rejected as invalid and a cell with a valid
rotation, `vertexNumForDirection` returns
`(canonicalVertex + modulus - rotation) % modulus` with modulus 6 for
hexagons and 5 for pentagons; in particular a hexagonal cell with rotation
0 returns the canonical hexagon table's J-axis entry unchanged. -/
theorem C5_mapper_formula (c : Cell) (d : Nat)
    (hd : ¬(d = CENTER_DIGIT ∨ INVALID_DIGIT ≤ d ∨
      (isBaseCellPentagon c.baseCell = true ∧ d = K_AXES_DIGIT)))
    (hrot : vertexRotations c ≠ INVALID_ROTATIONS) :
    vertexNumForDirection c d =
      (if isBaseCellPentagon c.baseCell then
        (directionToVertexNumPent.getD d (INVALID_DIGIT : Int) +
          NUM_PENT_VERTS - vertexRotations c) % NUM_PENT_VERTS
      else
        (directionToVertexNumHex.getD d (INVALID_DIGIT : Int) +
          NUM_HEX_VERTS - vertexRotations c) % NUM_HEX_VERTS) ∧
    (isBaseCellPentagon c.baseCell = false → vertexRotations c = 0 →
      vertexNumForDirection c J_AXES_DIGIT =
        directionToVertexNumHex.getD J_AXES_DIGIT (INVALID_DIGIT : Int)) := by
  refine ⟨vertexNumForDirection_of_not_rejected hd hrot, fun hp h0 => ?_⟩
  have hd2 : ¬(J_AXES_DIGIT = CENTER_DIGIT ∨ INVALID_DIGIT ≤ J_AXES_DIGIT ∨
      (isBaseCellPentagon c.baseCell = true ∧ J_AXES_DIGIT = K_AXES_DIGIT)) := by
    simp [CENTER_DIGIT, INVALID_DIGIT, J_AXES_DIGIT, K_AXES_DIGIT, hp]
  rw [vertexNumForDirection_of_not_rejected hd2 hrot, if_neg (by simp [hp]),
    h0]
  decide

/-- Witness for C5: the hexagonal cell of base cell 0 on face 1 has rotation
0, and the J-axis query returns the canonical table entry unchanged. -/
theorem C5_mapper_formula_witness :
    vertexNumForDirection ⟨0, 1, 2⟩ J_AXES_DIGIT =
      directionToVertexNumHex.getD J_AXES_DIGIT (INVALID_DIGIT : Int) :=
  (C5_mapper_formula ⟨0, 1, 2⟩ J_AXES_DIGIT (by decide) (by decide)).2
    (by decide) (by decide)

lemma pentagonSlotsDistinct (bc : Nat) (hpent : isBaseCellPentagon bc = true) :
    (rowSlot bc (IK_AXES_DIGIT - 2)).face ≠
      (rowSlot bc (JK_AXES_DIGIT - 2)).face := by
  have h : bc = 4 ∨ bc = 14 ∨ bc = 24 ∨ bc = 38 ∨ bc = 49 ∨ bc = 58 ∨
      bc = 63 ∨ bc = 72 ∨ bc = 83 ∨ bc = 97 ∨ bc = 107 ∨ bc = 117 := by
    simp only [isBaseCellPentagon, Bool.or_eq_true, beq_iff_eq] at hpent
    tauto
  rcases h with rfl | rfl | rfl | rfl | rfl | rfl | rfl | rfl | rfl |
    rfl | rfl | rfl <;> decide

/-- C6: for every base unit, a cell on the face of any of its non-sentinel
face associations gets a rotation in [0,5] from `vertexRotations`, never the
invalid sentinel; and in general `vertexRotations` returns either the
invalid sentinel or a value in [0,5]. -/
theorem C6_rotation_in_range (bc i ld : Nat) (c : Cell) :
    ((rowSlot bc i).face ≠ -1 →
      0 ≤ vertexRotations ⟨bc, (rowSlot bc i).face, ld⟩ ∧
      vertexRotations ⟨bc, (rowSlot bc i).face, ld⟩ ≤ 5) ∧
    (vertexRotations c = INVALID_ROTATIONS ∨
      (0 ≤ vertexRotations c ∧ vertexRotations c ≤ 5)) := by
  constructor
  · intro hface
    have hi : i < (cellRotationRow bc).length := by
      by_contra hge
      push_neg at hge
      have hdef : rowSlot bc i = ⟨-1, 0⟩ := by
        unfold rowSlot
        exact List.getD_eq_default _ _ hge
      rw [hdef] at hface
      exact hface rfl
    have hmem : rowSlot bc i ∈ cellRotationRow bc := by
      unfold rowSlot
      rw [List.getD_eq_getElem _ _ hi]
      exact (cellRotationRow bc).getElem_mem hi
    have hsome : (findAssoc bc (rowSlot bc i).face).isSome := by
      unfold findAssoc
      rw [List.find?_isSome]
      exact ⟨rowSlot bc i, hmem, by simp⟩
    obtain ⟨a, hra⟩ := Option.isSome_iff_exists.mp hsome
    exact vertexRotations_range_of_findAssoc
      (c := ⟨bc, (rowSlot bc i).face, ld⟩) hra
  · cases hfa : findAssoc c.baseCell c.face with
    | none => exact Or.inl (vertexRotations_of_findAssoc_none hfa)
    | some a => exact Or.inr (vertexRotations_range_of_findAssoc hfa)

/-- Witness for C6: the first face association of base cell 0 yields a
rotation in [0,5]. -/
theorem C6_rotation_in_range_witness :
    0 ≤ vertexRotations ⟨0, (rowSlot 0 0).face, 2⟩ ∧
      vertexRotations ⟨0, (rowSlot 0 0).face, 2⟩ ≤ 5 :=
  (C6_rotation_in_range 0 0 2 ⟨0, 0, 2⟩).1 (by decide)

/-- C7: `vertexRotations` returns the invalid sentinel exactly when no
recorded face association of the cell's base unit matches the cell's
current face, and for a non-rejected direction `vertexNumForDirection`
propagates the sentinel as the invalid-vertex sentinel. -/
theorem C7_invalid_sentinel_iff_no_match (c : Cell) (d : Nat) :
    (vertexRotations c = INVALID_ROTATIONS ↔
      ∀ a ∈ cellRotationRow c.baseCell, a.face ≠ c.face) ∧
    (¬(d = CENTER_DIGIT ∨ INVALID_DIGIT ≤ d ∨
        (isBaseCellPentagon c.baseCell = true ∧ d = K_AXES_DIGIT)) →
      vertexRotations c = INVALID_ROTATIONS →
      vertexNumForDirection c d = INVALID_VERTEX_NUM) := by
  refine ⟨⟨?_, ?_⟩, fun hd => vertexNumForDirection_of_invalid_rotations hd⟩
  · intro hinv a hmem hface
    have hsome : (findAssoc c.baseCell c.face).isSome := by
      unfold findAssoc
      rw [List.find?_isSome]
      exact ⟨a, hmem, by simp [hface]⟩
    obtain ⟨b, hb⟩ := Option.isSome_iff_exists.mp hsome
    obtain ⟨h0, _⟩ := vertexRotations_range_of_findAssoc hb
    rw [hinv] at h0
    simp only [INVALID_ROTATIONS] at h0
    omega
  · intro hnone
    apply vertexRotations_of_findAssoc_none
    unfold findAssoc
    rw [List.find?_eq_none]
    intro x hx
    simpa using hnone x hx

/-- Witness for C7: base cell 0 touches no face 99, so a cell reporting face
99 propagates the invalid sentinel through the J-axis query. -/
theorem C7_invalid_sentinel_iff_no_match_witness :
    vertexNumForDirection ⟨0, 99, 2⟩ 2 = INVALID_VERTEX_NUM :=
  (C7_invalid_sentinel_iff_no_match ⟨0, 99, 2⟩ 2).2 (by decide) (by decide)

/-- C8: for a pentagonal base unit, no face can simultaneously equal both
the IK-axis-indexed slot's face and the JK-axis-indexed slot's face, so the
two pentagon-crossing corrections never both apply. -/
theorem C8_crossing_corrections_exclusive (bc : Nat) (f : Int)
    (hpent : isBaseCellPentagon bc = true) :
    ¬(f = (rowSlot bc (IK_AXES_DIGIT - 2)).face ∧
      f = (rowSlot bc (JK_AXES_DIGIT - 2)).face) := by
  rintro ⟨h1, h2⟩
  exact pentagonSlotsDistinct bc hpent (h1.symm.trans h2)

/-- Witness for C8: on pentagonal base cell 4, face 0 does not satisfy both
crossing conditions at once. -/
theorem C8_crossing_corrections_exclusive_witness :
    ¬((0 : Int) = (rowSlot 4 (IK_AXES_DIGIT - 2)).face ∧
      (0 : Int) = (rowSlot 4 (JK_AXES_DIGIT - 2)).face) :=
  C8_crossing_corrections_exclusive 4 0 (by decide)

/-- C9: the mapper's modular rotation arithmetic round-trips — rotating a
canonical vertex value in [0,5] by R in [0,5] and then by (6 - R) mod 6
returns the original value. -/
theorem C9_rotation_round_trip (v r : Int) (hv0 : 0 ≤ v) (hv5 : v ≤ 5)
    (hr0 : 0 ≤ r) (hr5 : r ≤ 5) :
    rotateVertex (rotateVertex v r) ((NUM_HEX_VERTS - r) % NUM_HEX_VERTS) =
      v := by
  simp only [rotateVertex, NUM_HEX_VERTS]
  omega

/-- Witness for C9: rotating vertex 3 by 2 and then by (6 - 2) mod 6
returns 3. -/
theorem C9_rotation_round_trip_witness :
    rotateVertex (rotateVertex 3 2) ((NUM_HEX_VERTS - 2) % NUM_HEX_VERTS) =
      3 :=
  C9_rotation_round_trip 3 2 (by decide) (by decide) (by decide) (by decide)
